import Mathlib

/-!
Verification of the bulk-import pipeline of the Digital-twin FastAPI backend
(`app/services/file_processor.py`), as a shallow embedding in Lean 4.

Dynamic Python values appearing in spreadsheet cells and in prepared record
dictionaries are modelled by `PyVal`; pandas data frames by `DataFrame`;
the `FileProcessor._clean_dataframe`, `_prepare_*_data`, `_log_import_audit`
and `process_file` methods by functions of the corresponding names below.
Randomness (`uuid.uuid4().hex`) and the wall clock (`datetime.now()`) are
supplied as explicit parameters in an `Env`: the `j`-th processed row of
an import is prepared at instant `env.now j`, and its `n`-th `uuid4()` call
yields the hex string `env.uuidHex j n`.  Python floats are modelled as
exact scaled decimals (`Dec`), which is faithful for every operation the
pipeline performs on them (parsing, defaulting, truthiness).
-/

namespace FileProc

/-- A Python float value, represented exactly as `mant * 10 ^ (- scale)`.
The pipeline never does float arithmetic, only parsing and defaulting, so
this exact decimal representation is faithful. -/
structure Dec where
  mant : Int
  scale : Nat
deriving DecidableEq, Repr

/-- A dynamic Python value, as found in a cleaned pandas cell or in a
prepared record dictionary.  `time` abstracts `datetime` instants as
naturals. -/
inductive PyVal where
  | str (s : String)
  | num (d : Dec)
  | int (n : Int)
  | bool (b : Bool)
  | time (t : Nat)
  | none
deriving DecidableEq, Repr

/-- Python truthiness (`bool(x)`): empty string, zero, `False` and `None`
are falsy, everything else (including any non-empty string) is truthy. -/
def truthy : PyVal → Bool
  | .str s => s != ""
  | .num d => d.mant != 0
  | .int n => n != 0
  | .bool b => b
  | .time _ => true
  | .none => false

/-- Python `str(x)`.  The import paths we verify only apply it to strings
and booleans; the numeric and datetime cases abbreviate Python's repr. -/
def pyStr : PyVal → String
  | .str s => s
  | .num d => toString d.mant ++ "e-" ++ toString d.scale
  | .int n => toString n
  | .bool b => if b then "True" else "False"
  | .time t => toString t
  | .none => "None"

/-- Value of a digit list read in base 10. -/
def digitsVal (l : List Char) : Nat :=
  l.foldl (fun acc c => 10 * acc + (c.toNat - 48)) 0

/-- Strip leading and trailing whitespace from a character list, as
Python's `str.strip` does around numeric literals. -/
def trimChars (l : List Char) : List Char :=
  ((l.dropWhile Char.isWhitespace).reverse.dropWhile Char.isWhitespace).reverse

/-- Parse the unsigned part of a Python float literal: digits with an
optional single decimal point, at least one digit in total.  (Exponents,
inf and nan are out of scope for the imported spreadsheets.) -/
def parseUnsignedFloat (l : List Char) : Option Dec :=
  let p := l.span Char.isDigit
  match p.2 with
  | [] => if p.1.isEmpty then Option.none else Option.some ⟨(digitsVal p.1 : Int), 0⟩
  | c :: rest =>
    if c = '.' then
      let q := rest.span Char.isDigit
      if q.2.isEmpty && (p.1.length + q.1.length > 0) then
        Option.some ⟨(digitsVal p.1 * 10 ^ q.1.length + digitsVal q.1 : Int), q.1.length⟩
      else Option.none
    else Option.none

/-- Parse a Python float literal: surrounding whitespace is ignored and a
single leading sign is allowed, as `float(str)` does. -/
def parsePyFloat (s : String) : Option Dec :=
  match trimChars s.data with
  | '-' :: rest => (parseUnsignedFloat rest).map (fun d => ⟨-d.mant, d.scale⟩)
  | '+' :: rest => parseUnsignedFloat rest
  | l => parseUnsignedFloat l

/-- Parse a Python int literal: optional sign then digits only
(`int` of a string with a decimal point raises in Python). -/
def parsePyInt (s : String) : Option Int :=
  match trimChars s.data with
  | '-' :: rest =>
    if rest ≠ [] && rest.all Char.isDigit then Option.some (-(digitsVal rest : Int)) else Option.none
  | '+' :: rest =>
    if rest ≠ [] && rest.all Char.isDigit then Option.some ((digitsVal rest : Int)) else Option.none
  | l => if l ≠ [] && l.all Char.isDigit then Option.some ((digitsVal l : Int)) else Option.none

/-- Python `float(x)`: numbers and booleans convert, strings are parsed,
everything else raises. -/
def pyFloat : PyVal → Except String Dec
  | .num d => Except.ok d
  | .int n => Except.ok ⟨n, 0⟩
  | .bool b => Except.ok ⟨if b then 1 else 0, 0⟩
  | .str s =>
    match parsePyFloat s with
    | Option.some d => Except.ok d
    | Option.none => Except.error ("could not convert string to float: " ++ s)
  | .time _ => Except.error "float() argument must be a string or a real number"
  | .none => Except.error "float() argument must be a string or a real number, not NoneType"

/-- Python `int(x)`: ints and booleans convert, floats truncate toward
zero, strings are parsed as integer literals, everything else raises. -/
def pyInt : PyVal → Except String Int
  | .int n => Except.ok n
  | .bool b => Except.ok (if b then 1 else 0)
  | .num d => Except.ok (d.mant.tdiv ((10 : Int) ^ d.scale))
  | .str s =>
    match parsePyInt s with
    | Option.some n => Except.ok n
    | Option.none => Except.error ("invalid literal for int() with base 10: " ++ s)
  | .time _ => Except.error "int() argument must be a string or a number"
  | .none => Except.error "int() argument must be a string or a number, not NoneType"

/-- `pandas.to_datetime(x)`: a datetime passes through, numbers are epoch
offsets, and textual dates go through pandas' flexible parser, which we
abstract as accepting exactly the non-empty digit-only strings (so some
strings parse while e.g. the empty string or free text raise, which is all
the import pipeline depends on). -/
def pdToDatetime : PyVal → Except String Nat
  | .time t => Except.ok t
  | .int n => Except.ok n.toNat
  | .num d => Except.ok (d.mant.tdiv ((10 : Int) ^ d.scale)).toNat
  | .str s =>
    if s.data ≠ [] && s.data.all Char.isDigit then Except.ok (digitsVal s.data)
    else Except.error ("Unknown datetime string format: " ++ s)
  | .bool _ => Except.error "cannot convert bool to datetime"
  | .none => Except.error "cannot convert NaT in this model"

/-- Uppercase a string character by character, as Python's `str.upper`
does on the ASCII hex digits the pipeline feeds it. -/
def pyUpper (s : String) : String :=
  String.mk (s.data.map Char.toUpper)

/-- Python string slicing `s[:n]`. -/
def strTake (s : String) (n : Nat) : String :=
  String.mk (s.data.take n)

/-- A pandas `Series` row (and equally a prepared record dictionary): an
association list from column name to value. -/
abbrev Row := List (String × PyVal)

/-- `row.get(key, default)` on a pandas Series: the stored value when the
key (column) exists, the default otherwise. -/
def rowGet (row : Row) (k : String) (d : PyVal) : PyVal :=
  match row.lookup k with
  | Option.some v => v
  | Option.none => d

/-- `row.get(key)`: default `None`. -/
def rowGetD (row : Row) (k : String) : PyVal :=
  rowGet row k PyVal.none

/-- A pandas DataFrame as read from the spreadsheet: header names plus a
grid of cells, where `Option.none` is a missing cell (NaN). -/
structure DataFrame where
  cols : List String
  cells : List (List (Option PyVal))
deriving DecidableEq, Repr

/-- Header normalization of `_clean_dataframe`: lowercase and replace
spaces with underscores. -/
def normalizeColumn (s : String) : String :=
  String.mk (s.data.map (fun c => if c = ' ' then '_' else c.toLower))

/-- `FileProcessor._clean_dataframe` followed by the `iterrows` view:
drop the rows whose cells are all missing (`dropna(how='all')` keeps the
original integer index labels), normalize the header, and fill the
remaining missing cells with the empty string (`fillna('')`).  The result
pairs each surviving row with its original 0-based index label. -/
def cleanDataframe (df : DataFrame) : List (Nat × Row) :=
  let cols := df.cols.map normalizeColumn
  (df.cells.enum.filter (fun p => p.2.any (fun c => c.isSome))).map
    (fun p => (p.1, cols.zip (p.2.map (fun c => c.getD (PyVal.str "")))))

/-- Build a record dictionary from its fields in source order: the first
field whose computation raises aborts the construction with that error,
exactly as evaluation of a Python dict literal does. -/
def buildFields : List (String × Except String PyVal) → Except String Row
  | [] => Except.ok []
  | p :: rest =>
    match p.2, buildFields rest with
    | Except.ok v, Except.ok r => Except.ok ((p.1, v) :: r)
    | Except.error m, _ => Except.error m
    | Except.ok _, Except.error m => Except.error m

/-- `str(row.get(k, dflt))` for a required textual field with string
default `dflt`. -/
def reqStrField (row : Row) (k : String) (dflt : String) : Except String PyVal :=
  Except.ok (PyVal.str (pyStr (rowGet row k (PyVal.str dflt))))

/-- `str(row.get(k, "")) if row.get(k) else None` for an optional textual
field. -/
def optStrField (row : Row) (k : String) : Except String PyVal :=
  Except.ok (if truthy (rowGetD row k) then PyVal.str (pyStr (rowGet row k (PyVal.str ""))) else PyVal.none)

/-- `float(row.get(k, 0))` for a required numeric field defaulting to 0. -/
def reqFloatField (row : Row) (k : String) : Except String PyVal :=
  (pyFloat (rowGet row k (PyVal.int 0))).map PyVal.num

/-- `float(row.get(k)) if row.get(k) else None` for an optional numeric
field. -/
def optFloatField (row : Row) (k : String) : Except String PyVal :=
  if truthy (rowGetD row k) then (pyFloat (rowGetD row k)).map PyVal.num else Except.ok PyVal.none

/-- `int(row.get(k, 0))` for a required integer field defaulting to 0. -/
def reqIntField (row : Row) (k : String) : Except String PyVal :=
  (pyInt (rowGet row k (PyVal.int 0))).map PyVal.int

/-- `int(row.get(k)) if row.get(k) else None` for an optional integer
field. -/
def optIntField (row : Row) (k : String) : Except String PyVal :=
  if truthy (rowGetD row k) then (pyInt (rowGetD row k)).map PyVal.int else Except.ok PyVal.none

/-- `pd.to_datetime(row.get(k, current_time))` for a required date field
defaulting to the row-preparation instant `t`. -/
def reqDateField (row : Row) (k : String) (t : Nat) : Except String PyVal :=
  (pdToDatetime (rowGet row k (PyVal.time t))).map PyVal.time

/-- `pd.to_datetime(row.get(k)) if row.get(k) else None` for an optional
date field. -/
def optDateField (row : Row) (k : String) : Except String PyVal :=
  if truthy (rowGetD row k) then (pdToDatetime (rowGetD row k)).map PyVal.time else Except.ok PyVal.none

/-- `bool(row.get(k, False))` for a boolean flag field. -/
def boolField (row : Row) (k : String) : Except String PyVal :=
  Except.ok (PyVal.bool (truthy (rowGet row k (PyVal.bool false))))

/-- `str(row.get(k, "<PFX>-" + uuid4().hex[:n].upper()))` for a business
identifier field: the synthesized default is used only when the column is
absent. -/
def idField (row : Row) (k : String) (pfx : String) (hex : String) (n : Nat) : Except String PyVal :=
  Except.ok (PyVal.str (pyStr (rowGet row k (PyVal.str (pfx ++ pyUpper (strTake hex n))))))

/-- `FileProcessor._prepare_payment_data`. -/
def paymentFields (row : Row) (t : Nat) (u : Nat → String) : List (String × Except String PyVal) :=
  [
    ("payment_id", idField row "payment_id" "PAY-" (u 0) 8),
    ("transaction_reference", idField row "transaction_reference" "TXN-" (u 1) 12),
    ("amount", reqFloatField row "amount"),
    ("currency", reqStrField row "currency" "USD"),
    ("payment_method", reqStrField row "payment_method" "unknown"),
    ("payment_status", reqStrField row "payment_status" "pending"),
    ("policy_number", optStrField row "policy_number"),
    ("customer_id", optStrField row "customer_id"),
    ("agent_id", optStrField row "agent_id"),
    ("payment_date", reqDateField row "payment_date" t),
    ("due_date", optDateField row "due_date"),
    ("description", optStrField row "description"),
    ("processing_fee", reqFloatField row "processing_fee"),
    ("is_recurring", boolField row "is_recurring"),
    ("is_late_payment", boolField row "is_late_payment")]

/-- `FileProcessor._prepare_payment_data`: build the record from its field list. -/
def preparePaymentData (row : Row) (t : Nat) (u : Nat → String) : Except String Row :=
  buildFields (paymentFields row t u)

/-- `FileProcessor._prepare_receipt_data`. -/
def receiptFields (row : Row) (t : Nat) (u : Nat → String) : List (String × Except String PyVal) :=
  [
    ("receipt_number", idField row "receipt_number" "RCP-" (u 0) 8),
    ("payment_id", idField row "payment_id" "PAY-" (u 1) 8),
    ("amount", reqFloatField row "amount"),
    ("currency", reqStrField row "currency" "USD"),
    ("receipt_date", reqDateField row "receipt_date" t),
    ("policy_number", optStrField row "policy_number"),
    ("customer_id", optStrField row "customer_id"),
    ("customer_name", reqStrField row "customer_name" "Unknown Customer"),
    ("customer_email", optStrField row "customer_email"),
    ("description", optStrField row "description"),
    ("payment_method", reqStrField row "payment_method" "unknown"),
    ("receipt_status", reqStrField row "receipt_status" "generated"),
    ("email_sent", boolField row "email_sent")]

/-- `FileProcessor._prepare_receipt_data`: build the record from its field list. -/
def prepareReceiptData (row : Row) (t : Nat) (u : Nat → String) : Except String Row :=
  buildFields (receiptFields row t u)

/-- `FileProcessor._prepare_policy_data`. -/
def policyFields (row : Row) (t : Nat) (u : Nat → String) : List (String × Except String PyVal) :=
  [
    ("policy_number", idField row "policy_number" "POL-" (u 0) 8),
    ("policy_type", reqStrField row "policy_type" "unknown"),
    ("premium_amount", reqFloatField row "premium_amount"),
    ("coverage_amount", reqFloatField row "coverage_amount"),
    ("deductible", reqFloatField row "deductible"),
    ("currency", reqStrField row "currency" "USD"),
    ("effective_date", reqDateField row "effective_date" t),
    ("expiration_date", reqDateField row "expiration_date" t),
    ("renewal_date", optDateField row "renewal_date"),
    ("customer_id", idField row "customer_id" "CUST-" (u 1) 8),
    ("customer_name", reqStrField row "customer_name" "Unknown Customer"),
    ("agent_id", optStrField row "agent_id"),
    ("agent_name", optStrField row "agent_name"),
    ("status", reqStrField row "status" "active"),
    ("payment_frequency", reqStrField row "payment_frequency" "monthly"),
    ("next_payment_due", optDateField row "next_payment_due"),
    ("description", optStrField row "description"),
    ("auto_renewal", boolField row "auto_renewal"),
    ("is_group_policy", boolField row "is_group_policy")]

/-- `FileProcessor._prepare_policy_data`: build the record from its field list. -/
def preparePolicyData (row : Row) (t : Nat) (u : Nat → String) : Except String Row :=
  buildFields (policyFields row t u)

/-- `FileProcessor._prepare_claim_data`. -/
def claimFields (row : Row) (t : Nat) (u : Nat → String) : List (String × Except String PyVal) :=
  [
    ("claim_number", idField row "claim_number" "CLM-" (u 0) 8),
    ("policy_number", idField row "policy_number" "POL-" (u 1) 8),
    ("claim_type", reqStrField row "claim_type" "unknown"),
    ("claim_amount", reqFloatField row "claim_amount"),
    ("approved_amount", optFloatField row "approved_amount"),
    ("currency", reqStrField row "currency" "USD"),
    ("incident_date", reqDateField row "incident_date" t),
    ("claim_date", reqDateField row "claim_date" t),
    ("processed_date", optDateField row "processed_date"),
    ("settlement_date", optDateField row "settlement_date"),
    ("customer_id", idField row "customer_id" "CUST-" (u 2) 8),
    ("customer_name", reqStrField row "customer_name" "Unknown Customer"),
    ("agent_id", optStrField row "agent_id"),
    ("status", reqStrField row "status" "submitted"),
    ("priority", reqStrField row "priority" "medium"),
    ("description", reqStrField row "description" "Claim description"),
    ("incident_location", optStrField row "incident_location"),
    ("adjuster_id", optStrField row "adjuster_id"),
    ("adjuster_name", optStrField row "adjuster_name"),
    ("is_fraudulent", boolField row "is_fraudulent"),
    ("requires_investigation", boolField row "requires_investigation"),
    ("has_attachments", boolField row "has_attachments")]

/-- `FileProcessor._prepare_claim_data`: build the record from its field list. -/
def prepareClaimData (row : Row) (t : Nat) (u : Nat → String) : Except String Row :=
  buildFields (claimFields row t u)

/-- `str(row.get(k, dflt))` where the default is itself synthesized from
the row's uuid stream: used for the customer and agent email fields, whose
default is a synthesized address with 8 lowercase hex digits. -/
def emailField (row : Row) (k : String) (user : String) (hex : String) : Except String PyVal :=
  Except.ok (PyVal.str (pyStr (rowGet row k (PyVal.str (user ++ strTake hex 8 ++ "@example.com")))))

/-- `FileProcessor._prepare_customer_data`. -/
def customerFields (row : Row) (t : Nat) (u : Nat → String) : List (String × Except String PyVal) :=
  let firstName := pyStr (rowGet row "first_name" (PyVal.str "Unknown"))
  let lastName := pyStr (rowGet row "last_name" (PyVal.str "Customer"))
  let fullName := pyStr (rowGet row "full_name" (PyVal.str (firstName ++ " " ++ lastName)))
  [
    ("customer_id", idField row "customer_id" "CUST-" (u 0) 8),
    ("customer_number", optStrField row "customer_number"),
    ("first_name", Except.ok (PyVal.str firstName)),
    ("last_name", Except.ok (PyVal.str lastName)),
    ("full_name", Except.ok (PyVal.str fullName)),
    ("date_of_birth", optDateField row "date_of_birth"),
    ("gender", optStrField row "gender"),
    ("email", emailField row "email" "customer" (u 1)),
    ("phone", optStrField row "phone"),
    ("mobile", optStrField row "mobile"),
    ("address_line1", optStrField row "address_line1"),
    ("address_line2", optStrField row "address_line2"),
    ("city", optStrField row "city"),
    ("state", optStrField row "state"),
    ("postal_code", optStrField row "postal_code"),
    ("country", optStrField row "country"),
    ("status", reqStrField row "status" "active"),
    ("customer_type", reqStrField row "customer_type" "individual"),
    ("primary_agent_id", optStrField row "primary_agent_id"),
    ("registration_date", reqDateField row "registration_date" t),
    ("last_contact_date", optDateField row "last_contact_date"),
    ("preferred_contact_method", reqStrField row "preferred_contact_method" "email"),
    ("credit_score", optIntField row "credit_score"),
    ("payment_method", optStrField row "payment_method"),
    ("notes", optStrField row "notes"),
    ("marketing_consent", boolField row "marketing_consent"),
    ("is_vip", boolField row "is_vip"),
    ("has_claims", boolField row "has_claims")]

/-- `FileProcessor._prepare_customer_data`: build the record from its field list. -/
def prepareCustomerData (row : Row) (t : Nat) (u : Nat → String) : Except String Row :=
  buildFields (customerFields row t u)

/-- `FileProcessor._prepare_agent_data`. -/
def agentFields (row : Row) (t : Nat) (u : Nat → String) : List (String × Except String PyVal) :=
  let firstName := pyStr (rowGet row "first_name" (PyVal.str "Unknown"))
  let lastName := pyStr (rowGet row "last_name" (PyVal.str "Agent"))
  let fullName := pyStr (rowGet row "full_name" (PyVal.str (firstName ++ " " ++ lastName)))
  [
    ("agent_id", idField row "agent_id" "AGT-" (u 0) 8),
    ("employee_id", optStrField row "employee_id"),
    ("license_number", optStrField row "license_number"),
    ("first_name", Except.ok (PyVal.str firstName)),
    ("last_name", Except.ok (PyVal.str lastName)),
    ("full_name", Except.ok (PyVal.str fullName)),
    ("email", emailField row "email" "agent" (u 1)),
    ("phone", optStrField row "phone"),
    ("mobile", optStrField row "mobile"),
    ("hire_date", reqDateField row "hire_date" t),
    ("department", optStrField row "department"),
    ("position", optStrField row "position"),
    ("manager_id", optStrField row "manager_id"),
    ("status", reqStrField row "status" "active"),
    ("agent_type", reqStrField row "agent_type" "employee"),
    ("total_policies", reqIntField row "total_policies"),
    ("active_policies", reqIntField row "active_policies"),
    ("total_premium_written", reqFloatField row "total_premium_written"),
    ("commission_rate", reqFloatField row "commission_rate"),
    ("total_commission_earned", reqFloatField row "total_commission_earned"),
    ("last_commission_date", optDateField row "last_commission_date"),
    ("territory", optStrField row "territory"),
    ("specialization", optStrField row "specialization"),
    ("license_state", optStrField row "license_state"),
    ("license_expiry", optDateField row "license_expiry"),
    ("customer_satisfaction_score", optFloatField row "customer_satisfaction_score"),
    ("performance_rating", optStrField row "performance_rating"),
    ("notes", optStrField row "notes"),
    ("is_top_performer", boolField row "is_top_performer"),
    ("can_approve_claims", boolField row "can_approve_claims")]

/-- `FileProcessor._prepare_agent_data`: build the record from its field list. -/
def prepareAgentData (row : Row) (t : Nat) (u : Nat → String) : Except String Row :=
  buildFields (agentFields row t u)

/-- `FileProcessor._prepare_audit_log_data`. -/
def auditLogFields (row : Row) (t : Nat) (u : Nat → String) : List (String × Except String PyVal) :=
  [
    ("log_id", idField row "log_id" "LOG-" (u 0) 8),
    ("session_id", optStrField row "session_id"),
    ("user_id", optStrField row "user_id"),
    ("user_email", optStrField row "user_email"),
    ("user_role", optStrField row "user_role"),
    ("action", reqStrField row "action" "UNKNOWN"),
    ("resource_type", reqStrField row "resource_type" "unknown"),
    ("resource_id", optStrField row "resource_id"),
    ("event_timestamp", reqDateField row "event_timestamp" t),
    ("event_type", reqStrField row "event_type" "user_action"),
    ("severity", reqStrField row "severity" "info"),
    ("ip_address", optStrField row "ip_address"),
    ("user_agent", optStrField row "user_agent"),
    ("request_method", optStrField row "request_method"),
    ("request_url", optStrField row "request_url"),
    ("description", optStrField row "description"),
    ("error_message", optStrField row "error_message"),
    ("status", reqStrField row "status" "success"),
    ("is_sensitive", boolField row "is_sensitive"),
    ("requires_review", boolField row "requires_review"),
    ("correlation_id", optStrField row "correlation_id"),
    ("parent_log_id", optStrField row "parent_log_id")]

/-- `FileProcessor._prepare_audit_log_data`: build the record from its field list. -/
def prepareAuditLogData (row : Row) (t : Nat) (u : Nat → String) : Except String Row :=
  buildFields (auditLogFields row t u)

/-- The supported data-type tags of `FileProcessor.model_mapping`. -/
def supportedTypes : List String :=
  ["payments", "receipts", "policies", "claims", "customers", "agents", "audit_logs"]

/-- `FileProcessor._prepare_record_data`: dispatch on the data-type tag,
after capturing `current_time = datetime.now()` (passed here as `t`). -/
def prepareRecordData (dataType : String) (row : Row) (t : Nat) (u : Nat → String) : Except String Row :=
  if dataType = "payments" then preparePaymentData row t u
  else if dataType = "receipts" then prepareReceiptData row t u
  else if dataType = "policies" then preparePolicyData row t u
  else if dataType = "claims" then prepareClaimData row t u
  else if dataType = "customers" then prepareCustomerData row t u
  else if dataType = "agents" then prepareAgentData row t u
  else if dataType = "audit_logs" then prepareAuditLogData row t u
  else Except.error ("Unsupported data type: " ++ dataType)

/-- The ambient effects of one `process_file` invocation, supplied
explicitly: the wall clock sampled at the start of each row's
`_prepare_record_data` (`now`), the per-row stream of `uuid4().hex`
outputs (`uuidHex j n` is the `n`-th call while preparing the `j`-th
iterated row), the uuid and clock sample used by `_log_import_audit`, and
whether the two storage commits succeed. -/
structure Env where
  now : Nat → Nat
  uuidHex : Nat → Nat → String
  auditUuid : String
  auditTime : Nat
  batchCommitOk : Bool
  auditCommitOk : Bool

/-- The row loop of `process_file`: iterate the cleaned rows in order,
preparing the `j`-th iterated row (whose original index label is `i`) at
instant `env.now j`; a successful build stages the record, a failure
appends the message `"Row {i + 1}: {e}"`.  Returns the staged records and
the error list, both in row order. -/
def runRows (env : Env) (dataType : String) : Nat → List (Nat × Row) → List Row × List String
  | _, [] => ([], [])
  | j, p :: rest =>
    let next := runRows env dataType (j + 1) rest
    match prepareRecordData dataType p.2 (env.now j) (env.uuidHex j) with
    | Except.ok r => (r :: next.1, next.2)
    | Except.error m => (next.1, ("Row " ++ toString (p.1 + 1) ++ ": " ++ m) :: next.2)

/-- The audit row written by `FileProcessor._log_import_audit`. -/
structure AuditEntry where
  log_id : String
  action : String
  resource_type : String
  event_timestamp : Nat
  event_type : String
  severity : String
  description : String
  status : String
deriving DecidableEq, Repr

/-- The `AuditLog` record constructed in `_log_import_audit`. -/
def mkImportAudit (env : Env) (dataType : String) (recordsImported errorCount : Nat) : AuditEntry :=
  { log_id := "IMPORT-" ++ pyUpper (strTake env.auditUuid 8),
    action := "FILE_IMPORT",
    resource_type := dataType,
    event_timestamp := env.auditTime,
    event_type := "system_event",
    severity := if errorCount = 0 then "info" else "warning",
    description := "File import completed for " ++ dataType ++ ": " ++
      toString recordsImported ++ " records imported, " ++ toString errorCount ++ " errors",
    status := if errorCount = 0 then "success" else "warning" }

/-- The return value of `process_file` on its normal path. -/
structure ImportResult where
  records_imported : Nat
  errors : List String
  status : String
deriving DecidableEq, Repr

/-- The externally observable storage state after one invocation:
committed records, committed audit entries, and how many times an audit
emission was attempted (i.e., `_log_import_audit` was entered). -/
structure DBState where
  committed : List Row
  audits : List AuditEntry
  auditAttempts : Nat
deriving DecidableEq, Repr

deriving instance DecidableEq for Except

/-- What one `process_file` call produces: either a result dict or a
propagated exception, together with the storage state it leaves behind. -/
structure ProcOutput where
  outcome : Except String ImportResult
  db : DBState
deriving DecidableEq, Repr

/-- `FileProcessor.process_file`, from the point where the spreadsheet has
been parsed into `df`.  Cleans the frame, rejects unsupported tags
(`ValueError` propagates through the outer handler after `db.rollback()`),
runs the row loop, commits the staged batch only when it is non-empty
(a failing commit raises through the outer handler: the rollback discards
the staged records and `_log_import_audit` is never reached), and
otherwise calls `_log_import_audit`, which swallows its own failure. -/
def processFile (env : Env) (dataType : String) (df : DataFrame) : ProcOutput :=
  let rows := cleanDataframe df
  if dataType ∈ supportedTypes then
    let run := runRows env dataType 0 rows
    if run.1 ≠ [] ∧ env.batchCommitOk = false then
      { outcome := Except.error "StorageError",
        db := { committed := [], audits := [], auditAttempts := 0 } }
    else
      { outcome := Except.ok
          { records_imported := run.1.length,
            errors := run.2,
            status := if run.2.isEmpty then "completed" else "completed_with_errors" },
        db := { committed := run.1,
                audits := if env.auditCommitOk then
                    [mkImportAudit env dataType run.1.length run.2.length]
                  else [],
                auditAttempts := 1 } }
  else
    { outcome := Except.error ("Unsupported data type: " ++ dataType),
      db := { committed := [], audits := [], auditAttempts := 0 } }

/-- The value inside a successful field computation (`PyVal.none` is a
dummy for the error case, which never occurs where this is used). -/
def exGet : Except String PyVal → PyVal
  | Except.ok v => v
  | Except.error _ => PyVal.none

theorem buildFields_eq_ok {l : List (String × Except String PyVal)} {r : Row}
    (h : buildFields l = Except.ok r) : r = l.map (fun p => (p.1, exGet p.2)) := by
  induction l generalizing r with
  | nil =>
    simp only [buildFields] at h
    cases h
    rfl
  | cons p rest ih =>
    simp only [buildFields] at h
    cases hp : p.2 with
    | error m => rw [hp] at h; simp at h
    | ok v =>
      rw [hp] at h
      cases hr : buildFields rest with
      | error m => rw [hr] at h; simp at h
      | ok rr =>
        rw [hr] at h
        cases h
        simp [List.map, exGet, hp, ih hr]

theorem buildFields_mem_ok {l : List (String × Except String PyVal)} {r : Row}
    (h : buildFields l = Except.ok r) {p : String × Except String PyVal} (hp : p ∈ l) :
    ∃ v, p.2 = Except.ok v := by
  induction l generalizing r with
  | nil => cases hp
  | cons q rest ih =>
    simp only [buildFields] at h
    cases hq : q.2 with
    | error m => rw [hq] at h; simp at h
    | ok v =>
      rw [hq] at h
      cases hr : buildFields rest with
      | error m => rw [hr] at h; simp at h
      | ok rr =>
        rcases List.mem_cons.mp hp with hph | hpt
        · exact ⟨v, hph ▸ hq⟩
        · exact ih hr hpt

theorem buildFields_error_of_mem {l : List (String × Except String PyVal)}
    {p : String × Except String PyVal} {m : String} (hp : p ∈ l) (hm : p.2 = Except.error m) :
    ∃ m2, buildFields l = Except.error m2 := by
  induction l with
  | nil => cases hp
  | cons q rest ih =>
    rcases List.mem_cons.mp hp with hph | hpt
    · refine ⟨m, ?_⟩
      simp only [buildFields, hph ▸ hm]
    · rcases ih hpt with ⟨m2, h2⟩
      cases hq : q.2 with
      | error m3 => exact ⟨m3, by simp only [buildFields, hq]⟩
      | ok v => exact ⟨m2, by simp only [buildFields, hq, h2]⟩

theorem lookup_map_exGet (l : List (String × Except String PyVal)) (k : String) :
    List.lookup k (l.map (fun p => (p.1, exGet p.2))) = (List.lookup k l).map exGet := by
  induction l with
  | nil => rfl
  | cons p rest ih =>
    simp only [List.map, List.lookup]
    cases k == p.1 <;> simp [ih]

theorem rowGet_of_lookup_none {row : Row} {k : String} {d : PyVal}
    (h : row.lookup k = Option.none) : rowGet row k d = d := by
  simp [rowGet, h]

theorem rowGet_of_lookup_some {row : Row} {k : String} {d v : PyVal}
    (h : row.lookup k = Option.some v) : rowGet row k d = v := by
  simp [rowGet, h]

theorem runRows_nil (env : Env) (dataType : String) (j : Nat) :
    runRows env dataType j [] = ([], []) := rfl

theorem runRows_cons (env : Env) (dataType : String) (j : Nat) (p : Nat × Row)
    (rest : List (Nat × Row)) :
    runRows env dataType j (p :: rest) =
      match prepareRecordData dataType p.2 (env.now j) (env.uuidHex j) with
      | Except.ok r => (r :: (runRows env dataType (j + 1) rest).1, (runRows env dataType (j + 1) rest).2)
      | Except.error m =>
        ((runRows env dataType (j + 1) rest).1,
          ("Row " ++ toString (p.1 + 1) ++ ": " ++ m) :: (runRows env dataType (j + 1) rest).2) := by
  simp only [runRows]

theorem runRows_length (env : Env) (dataType : String) (j : Nat) (rows : List (Nat × Row)) :
    (runRows env dataType j rows).1.length + (runRows env dataType j rows).2.length
      = rows.length := by
  induction rows generalizing j with
  | nil => rfl
  | cons p rest ih =>
    rw [runRows_cons]
    cases prepareRecordData dataType p.2 (env.now j) (env.uuidHex j) with
    | ok r =>
      have h := ih (j + 1)
      simp only [List.length_cons]
      omega
    | error m =>
      have h := ih (j + 1)
      simp only [List.length_cons]
      omega

theorem runRows_append (env : Env) (dataType : String) (j : Nat)
    (a b : List (Nat × Row)) :
    runRows env dataType j (a ++ b) =
      ((runRows env dataType j a).1 ++ (runRows env dataType (j + a.length) b).1,
       (runRows env dataType j a).2 ++ (runRows env dataType (j + a.length) b).2) := by
  induction a generalizing j with
  | nil => simp [runRows_nil]
  | cons p rest ih =>
    simp only [List.cons_append, runRows_cons, ih (j + 1), List.length_cons]
    cases prepareRecordData dataType p.2 (env.now j) (env.uuidHex j) with
    | ok r => simp [Nat.add_comm, Nat.add_left_comm]
    | error m => simp [Nat.add_comm, Nat.add_left_comm]

theorem processFile_ok {env : Env} {dataType : String} {df : DataFrame} {res : ImportResult}
    (hsupp : dataType ∈ supportedTypes)
    (h : (processFile env dataType df).outcome = Except.ok res) :
    res = { records_imported := (runRows env dataType 0 (cleanDataframe df)).1.length,
            errors := (runRows env dataType 0 (cleanDataframe df)).2,
            status := if (runRows env dataType 0 (cleanDataframe df)).2.isEmpty
              then "completed" else "completed_with_errors" } ∧
    (processFile env dataType df).db.committed = (runRows env dataType 0 (cleanDataframe df)).1 ∧
    (processFile env dataType df).db.auditAttempts = 1 := by
  unfold processFile at h ⊢
  rw [if_pos hsupp] at h ⊢
  by_cases hc : (runRows env dataType 0 (cleanDataframe df)).1 ≠ [] ∧ env.batchCommitOk = false
  · rw [if_pos hc] at h
    simp at h
  · rw [if_neg hc] at h ⊢
    refine ⟨?_, rfl, rfl⟩
    simpa using h.symm

theorem processFile_error {env : Env} {dataType : String} {df : DataFrame} {m : String}
    (hsupp : dataType ∈ supportedTypes)
    (h : (processFile env dataType df).outcome = Except.error m) :
    m = "StorageError" ∧
    (processFile env dataType df).db.auditAttempts = 0 ∧
    (processFile env dataType df).db.committed = [] ∧
    (processFile env dataType df).db.audits = [] := by
  unfold processFile at h ⊢
  rw [if_pos hsupp] at h ⊢
  by_cases hc : (runRows env dataType 0 (cleanDataframe df)).1 ≠ [] ∧ env.batchCommitOk = false
  · rw [if_pos hc] at h ⊢
    simp at h
    exact ⟨h.symm, rfl, rfl, rfl⟩
  · rw [if_neg hc] at h
    simp at h

theorem append_left_ne_empty (a b : String) (ha : a.data ≠ []) : a ++ b ≠ "" := by
  intro h
  apply ha
  have h2 : (a ++ b).data = [] := by rw [h]
  rw [String.data_append] at h2
  exact (List.append_eq_nil.mp h2).1

/-- In a run with no row errors, the `k`-th staged record comes from the
`k`-th iterated row, prepared at instant `env.now (j + k)`. -/
theorem runRows_noErrors_get {env : Env} {dataType : String} {j : Nat}
    {rows : List (Nat × Row)} (herr : (runRows env dataType j rows).2 = [])
    {k : Nat} {r : Row} (hk : (runRows env dataType j rows).1.get? k = Option.some r) :
    ∃ p, rows.get? k = Option.some p ∧
      prepareRecordData dataType p.2 (env.now (j + k)) (env.uuidHex (j + k)) = Except.ok r := by
  induction rows generalizing j k with
  | nil => simp [runRows_nil] at hk
  | cons p rest ih =>
    rw [runRows_cons] at herr hk
    cases hp : prepareRecordData dataType p.2 (env.now j) (env.uuidHex j) with
    | error m => rw [hp] at herr; simp at herr
    | ok r0 =>
      rw [hp] at herr hk
      simp only [] at herr hk
      cases k with
      | zero =>
        simp only [List.get?] at hk
        cases hk
        exact ⟨p, rfl, by simpa using hp⟩
      | succ k2 =>
        simp only [List.get?] at hk
        rcases ih herr hk with ⟨q, hq1, hq2⟩
        refine ⟨q, hq1, ?_⟩
        have harith : j + 1 + k2 = j + (k2 + 1) := by omega
        rw [harith] at hq2
        exact hq2

/-- A fixed 32-character lowercase hex string standing for one
`uuid4().hex` output in concrete runs. -/
def hex32 : String := "0123456789abcdef0123456789abcdef"

/-- Environment for concrete runs: the clock ticks once per prepared row
(`now j = j`) and both storage commits succeed. -/
def envOk : Env :=
  { now := fun j => j, uuidHex := fun _ _ => hex32, auditUuid := hex32,
    auditTime := 99, batchCommitOk := true, auditCommitOk := true }

/-- Same as `envOk` except the batch commit raises a StorageError. -/
def envNoCommit : Env :=
  { envOk with batchCommitOk := false }

/-- One well-formed payments row. -/
def dfOnePay : DataFrame :=
  { cols := ["payment_id", "amount"],
    cells := [[Option.some (PyVal.str "P1"), Option.some (PyVal.str "10")]] }

/-- Two payments rows with no payment_date column, so both rows take the
defaulted date. -/
def dfTwoNoDate : DataFrame :=
  { cols := ["amount"],
    cells := [[Option.some (PyVal.int 1)], [Option.some (PyVal.int 2)]] }

/-- Three payments rows whose middle row has non-numeric text in the
required numeric column. -/
def dfMidBad : DataFrame :=
  { cols := ["payment_id", "amount"],
    cells := [[Option.some (PyVal.str "P1"), Option.some (PyVal.str "1")],
              [Option.some (PyVal.str "P2"), Option.some (PyVal.str "x")],
              [Option.some (PyVal.str "P3"), Option.some (PyVal.str "3")]] }

/-- Two payments rows that both fail validation. -/
def dfAllBad : DataFrame :=
  { cols := ["amount"],
    cells := [[Option.some (PyVal.str "x")], [Option.some (PyVal.str "y")]] }

/-- C1, counterexample.  A parsed import whose batch commit raises a
StorageError performs *no* audit emission at all: `db.commit()` at
file_processor.py line 68 raises into the outer handler at line 80, which
rolls back and re-raises before `_log_import_audit` (line 72) is ever
reached.  This run reaches the orchestration stage yet attempts zero audit
entries, refuting the claim that an audit emission is still attempted. -/
theorem C1_counterexample :
    (processFile envNoCommit "payments" dfOnePay).outcome = Except.error "StorageError" ∧
    (processFile envNoCommit "payments" dfOnePay).db.auditAttempts = 0 ∧
    (processFile envNoCommit "payments" dfOnePay).db.audits = [] := by
  decide

/-- C1, amended.  For every ImportRequest that reaches the orchestration
stage: when the invocation returns normally, exactly one audit emission is
attempted (and exactly one AuditEntry is written when the audit insert
succeeds); when the batch commit of staged records raises a StorageError
the import fails, nothing is considered imported, and no audit emission is
attempted. -/
theorem C1_theorem (env : Env) (dataType : String) (df : DataFrame)
    (hsupp : dataType ∈ supportedTypes) :
    ((∃ res, (processFile env dataType df).outcome = Except.ok res) →
      (processFile env dataType df).db.auditAttempts = 1 ∧
      (processFile env dataType df).db.audits.length = (if env.auditCommitOk then 1 else 0)) ∧
    (∀ m, (processFile env dataType df).outcome = Except.error m →
      m = "StorageError" ∧
      (processFile env dataType df).db.auditAttempts = 0 ∧
      (processFile env dataType df).db.committed = [] ∧
      (processFile env dataType df).db.audits = []) := by
  constructor
  · rintro ⟨res, hres⟩
    unfold processFile at hres ⊢
    rw [if_pos hsupp] at hres ⊢
    by_cases hc : (runRows env dataType 0 (cleanDataframe df)).1 ≠ [] ∧ env.batchCommitOk = false
    · rw [if_pos hc] at hres
      simp at hres
    · rw [if_neg hc]
      cases henv : env.auditCommitOk <;> simp [henv]
  · intro m hm
    exact processFile_error hsupp hm

/-- C1, witness: on a successful one-row import exactly one audit entry is
attempted and written. -/
theorem C1_witness :
    (processFile envOk "payments" dfOnePay).db.auditAttempts = 1 ∧
    (processFile envOk "payments" dfOnePay).db.audits.length = (if envOk.auditCommitOk then 1 else 0) :=
  (C1_theorem envOk "payments" dfOnePay (by decide)).1
    ⟨{ records_imported := 1, errors := [], status := "completed" }, by decide⟩

/-- C2, counterexample.  Two payments rows in one import, both with the
required date column absent, receive the clock samples of their own
`_prepare_record_data` calls (`datetime.now()` is taken per row at
file_processor.py line 100): with a clock that ticks between rows the two
defaulted records carry instants 0 and 1, which differ — refuting the
claim that all defaulted rows of a batch share a single instant. -/
theorem C2_counterexample :
    ((processFile envOk "payments" dfTwoNoDate).db.committed.map
      (fun r => List.lookup "payment_date" r)) =
      [Option.some (PyVal.time 0), Option.some (PyVal.time 1)] ∧
    PyVal.time 0 ≠ PyVal.time 1 := by
  decide

/-- C2, amended.  A row whose required date is absent receives the
timestamp sampled when that row itself was prepared: the builder stamps
the per-row instant `t`, and in a fully successful payments import with
the date column absent the `k`-th committed record carries `env.now k`
(the clock sample of the `k`-th row), so defaulted rows prepared at
different clock readings carry different instants. -/
theorem C2_theorem :
    (∀ row t u r, List.lookup "payment_date" row = Option.none →
      preparePaymentData row t u = Except.ok r →
      List.lookup "payment_date" r = Option.some (PyVal.time t)) ∧
    (∀ (env : Env) (df : DataFrame) (res : ImportResult),
      (∀ p ∈ cleanDataframe df, List.lookup "payment_date" p.2 = Option.none) →
      (processFile env "payments" df).outcome = Except.ok res →
      res.errors = [] →
      ∀ k r, (processFile env "payments" df).db.committed.get? k = Option.some r →
        List.lookup "payment_date" r = Option.some (PyVal.time (env.now k))) := by
  have hbuilder : ∀ row t u r, List.lookup "payment_date" row = Option.none →
      preparePaymentData row t u = Except.ok r →
      List.lookup "payment_date" r = Option.some (PyVal.time t) := by
    intro row t u r habs hok
    unfold preparePaymentData at hok
    rw [buildFields_eq_ok hok]
    show Option.some (exGet (reqDateField row "payment_date" t)) = _
    rw [reqDateField, rowGet_of_lookup_none habs]
    rfl
  refine ⟨hbuilder, ?_⟩
  intro env df res hall hok herr k r hk
  rcases processFile_ok (by decide) hok with ⟨hres, hcom, _⟩
  rw [hcom] at hk
  have herr2 : (runRows env "payments" 0 (cleanDataframe df)).2 = [] := by
    have := congrArg ImportResult.errors hres
    simp only [] at this
    rw [← this, herr]
  rcases runRows_noErrors_get herr2 hk with ⟨p, hp1, hp2⟩
  have hmem : p ∈ cleanDataframe df := List.get?_mem hp1
  have hprep : preparePaymentData p.2 (env.now (0 + k)) (env.uuidHex (0 + k)) = Except.ok r := hp2
  have hz : (0 : Nat) + k = k := Nat.zero_add k
  rw [hz] at hprep
  exact hbuilder p.2 (env.now k) (env.uuidHex k) r (hall p hmem) hprep

/-- C2, witness: in the two-row no-date import, the second committed
record carries the clock sample of row 1. -/
theorem C2_witness :
    ((processFile envOk "payments" dfTwoNoDate).db.committed.get? 1).map
      (fun r => List.lookup "payment_date" r) =
      Option.some (Option.some (PyVal.time (envOk.now 1))) := by
  cases hget : (processFile envOk "payments" dfTwoNoDate).db.committed.get? 1 with
  | none => exact absurd hget (by decide)
  | some r =>
    have h := C2_theorem.2 envOk dfTwoNoDate
      { records_imported := 2, errors := [], status := "completed" }
      (by decide) (by decide) rfl 1 r hget
    simp [h]

/-- Constant uuid stream for concrete builder runs. -/
def uC : Nat → String := fun _ => hex32

theorem exGet_idField_absent {row : Row} {k : String} (pfx hex : String) (n : Nat)
    (habs : row.lookup k = Option.none) :
    exGet (idField row k pfx hex n) = PyVal.str (pfx ++ pyUpper (strTake hex n)) := by
  rw [idField, rowGet_of_lookup_none habs]
  rfl

theorem exGet_idField_present {row : Row} {k : String} (pfx hex : String) (n : Nat) {s : String}
    (hs : row.lookup k = Option.some (PyVal.str s)) :
    exGet (idField row k pfx hex n) = PyVal.str s := by
  rw [idField, rowGet_of_lookup_some hs]
  rfl

/-- C3, counterexample.  A payments row whose payment_id *cell* is empty
(the normalizer turns a blank cell in a present column into the empty
string, and `row.get` then returns it instead of the synthesized default)
builds successfully into a record whose business identifier is the empty
string — refuting the invariant that every successfully built record
carries a non-empty identifier. -/
theorem C3_counterexample :
    ((preparePaymentData [("payment_id", PyVal.str "")] 0 uC).toOption.map
      (fun r => List.lookup "payment_id" r)) =
      Option.some (Option.some (PyVal.str "")) ∧
    ("" : String).length = 0 := by
  decide

/-- C3, amended.  For every successfully built record of any of the seven
entities, when the business identifier *column is absent from the row*,
the identifier is synthesized as the entity prefix (PAY-, RCP-, POL-,
CLM-, CUST-, AGT-, LOG-) followed by the first 8 characters of the
`uuid4().hex` output uppercased, and this synthesized identifier is a
non-empty string; when the column is present, the cell's value is used
verbatim, so an empty cell yields an empty identifier. -/
theorem C3_theorem :
    (∀ row t u r, List.lookup "payment_id" row = Option.none →
      preparePaymentData row t u = Except.ok r →
      List.lookup "payment_id" r = Option.some (PyVal.str ("PAY-" ++ pyUpper (strTake (u 0) 8))) ∧
      "PAY-" ++ pyUpper (strTake (u 0) 8) ≠ "") ∧
    (∀ row t u r, List.lookup "receipt_number" row = Option.none →
      prepareReceiptData row t u = Except.ok r →
      List.lookup "receipt_number" r = Option.some (PyVal.str ("RCP-" ++ pyUpper (strTake (u 0) 8))) ∧
      "RCP-" ++ pyUpper (strTake (u 0) 8) ≠ "") ∧
    (∀ row t u r, List.lookup "policy_number" row = Option.none →
      preparePolicyData row t u = Except.ok r →
      List.lookup "policy_number" r = Option.some (PyVal.str ("POL-" ++ pyUpper (strTake (u 0) 8))) ∧
      "POL-" ++ pyUpper (strTake (u 0) 8) ≠ "") ∧
    (∀ row t u r, List.lookup "claim_number" row = Option.none →
      prepareClaimData row t u = Except.ok r →
      List.lookup "claim_number" r = Option.some (PyVal.str ("CLM-" ++ pyUpper (strTake (u 0) 8))) ∧
      "CLM-" ++ pyUpper (strTake (u 0) 8) ≠ "") ∧
    (∀ row t u r, List.lookup "customer_id" row = Option.none →
      prepareCustomerData row t u = Except.ok r →
      List.lookup "customer_id" r = Option.some (PyVal.str ("CUST-" ++ pyUpper (strTake (u 0) 8))) ∧
      "CUST-" ++ pyUpper (strTake (u 0) 8) ≠ "") ∧
    (∀ row t u r, List.lookup "agent_id" row = Option.none →
      prepareAgentData row t u = Except.ok r →
      List.lookup "agent_id" r = Option.some (PyVal.str ("AGT-" ++ pyUpper (strTake (u 0) 8))) ∧
      "AGT-" ++ pyUpper (strTake (u 0) 8) ≠ "") ∧
    (∀ row t u r, List.lookup "log_id" row = Option.none →
      prepareAuditLogData row t u = Except.ok r →
      List.lookup "log_id" r = Option.some (PyVal.str ("LOG-" ++ pyUpper (strTake (u 0) 8))) ∧
      "LOG-" ++ pyUpper (strTake (u 0) 8) ≠ "") := by
  refine ⟨?_, ?_, ?_, ?_, ?_, ?_, ?_⟩
  · intro row t u r habs hok
    unfold preparePaymentData at hok
    rw [buildFields_eq_ok hok]
    refine ⟨?_, append_left_ne_empty _ _ (by decide)⟩
    show Option.some (exGet (idField row "payment_id" "PAY-" (u 0) 8)) = _
    rw [exGet_idField_absent _ _ _ habs]
  · intro row t u r habs hok
    unfold prepareReceiptData at hok
    rw [buildFields_eq_ok hok]
    refine ⟨?_, append_left_ne_empty _ _ (by decide)⟩
    show Option.some (exGet (idField row "receipt_number" "RCP-" (u 0) 8)) = _
    rw [exGet_idField_absent _ _ _ habs]
  · intro row t u r habs hok
    unfold preparePolicyData at hok
    rw [buildFields_eq_ok hok]
    refine ⟨?_, append_left_ne_empty _ _ (by decide)⟩
    show Option.some (exGet (idField row "policy_number" "POL-" (u 0) 8)) = _
    rw [exGet_idField_absent _ _ _ habs]
  · intro row t u r habs hok
    unfold prepareClaimData at hok
    rw [buildFields_eq_ok hok]
    refine ⟨?_, append_left_ne_empty _ _ (by decide)⟩
    show Option.some (exGet (idField row "claim_number" "CLM-" (u 0) 8)) = _
    rw [exGet_idField_absent _ _ _ habs]
  · intro row t u r habs hok
    simp only [prepareCustomerData] at hok
    rw [buildFields_eq_ok hok]
    refine ⟨?_, append_left_ne_empty _ _ (by decide)⟩
    show Option.some (exGet (idField row "customer_id" "CUST-" (u 0) 8)) = _
    rw [exGet_idField_absent _ _ _ habs]
  · intro row t u r habs hok
    simp only [prepareAgentData] at hok
    rw [buildFields_eq_ok hok]
    refine ⟨?_, append_left_ne_empty _ _ (by decide)⟩
    show Option.some (exGet (idField row "agent_id" "AGT-" (u 0) 8)) = _
    rw [exGet_idField_absent _ _ _ habs]
  · intro row t u r habs hok
    unfold prepareAuditLogData at hok
    rw [buildFields_eq_ok hok]
    refine ⟨?_, append_left_ne_empty _ _ (by decide)⟩
    show Option.some (exGet (idField row "log_id" "LOG-" (u 0) 8)) = _
    rw [exGet_idField_absent _ _ _ habs]

/-- C3, witness: building the empty row of each of the seven entities
yields the synthesized prefixed identifier. -/
theorem C3_witness :
    ((preparePaymentData [] 0 uC).toOption.map (fun r => List.lookup "payment_id" r)) =
      Option.some (Option.some (PyVal.str ("PAY-" ++ pyUpper (strTake (uC 0) 8)))) ∧
    ((prepareReceiptData [] 0 uC).toOption.map (fun r => List.lookup "receipt_number" r)) =
      Option.some (Option.some (PyVal.str ("RCP-" ++ pyUpper (strTake (uC 0) 8)))) ∧
    ((preparePolicyData [] 0 uC).toOption.map (fun r => List.lookup "policy_number" r)) =
      Option.some (Option.some (PyVal.str ("POL-" ++ pyUpper (strTake (uC 0) 8)))) ∧
    ((prepareClaimData [] 0 uC).toOption.map (fun r => List.lookup "claim_number" r)) =
      Option.some (Option.some (PyVal.str ("CLM-" ++ pyUpper (strTake (uC 0) 8)))) ∧
    ((prepareCustomerData [] 0 uC).toOption.map (fun r => List.lookup "customer_id" r)) =
      Option.some (Option.some (PyVal.str ("CUST-" ++ pyUpper (strTake (uC 0) 8)))) ∧
    ((prepareAgentData [] 0 uC).toOption.map (fun r => List.lookup "agent_id" r)) =
      Option.some (Option.some (PyVal.str ("AGT-" ++ pyUpper (strTake (uC 0) 8)))) ∧
    ((prepareAuditLogData [] 0 uC).toOption.map (fun r => List.lookup "log_id" r)) =
      Option.some (Option.some (PyVal.str ("LOG-" ++ pyUpper (strTake (uC 0) 8)))) := by
  refine ⟨?_, ?_, ?_, ?_, ?_, ?_, ?_⟩
  · cases hok : preparePaymentData [] 0 uC with
    | error m =>
      have hcontra : (preparePaymentData [] 0 uC).toOption = Option.none := by rw [hok]; rfl
      exact absurd hcontra (by decide)
    | ok r =>
      show Option.some (List.lookup "payment_id" r) = _
      rw [(C3_theorem.1 [] 0 uC r rfl hok).1]
  · cases hok : prepareReceiptData [] 0 uC with
    | error m =>
      have hcontra : (prepareReceiptData [] 0 uC).toOption = Option.none := by rw [hok]; rfl
      exact absurd hcontra (by decide)
    | ok r =>
      show Option.some (List.lookup "receipt_number" r) = _
      rw [(C3_theorem.2.1 [] 0 uC r rfl hok).1]
  · cases hok : preparePolicyData [] 0 uC with
    | error m =>
      have hcontra : (preparePolicyData [] 0 uC).toOption = Option.none := by rw [hok]; rfl
      exact absurd hcontra (by decide)
    | ok r =>
      show Option.some (List.lookup "policy_number" r) = _
      rw [(C3_theorem.2.2.1 [] 0 uC r rfl hok).1]
  · cases hok : prepareClaimData [] 0 uC with
    | error m =>
      have hcontra : (prepareClaimData [] 0 uC).toOption = Option.none := by rw [hok]; rfl
      exact absurd hcontra (by decide)
    | ok r =>
      show Option.some (List.lookup "claim_number" r) = _
      rw [(C3_theorem.2.2.2.1 [] 0 uC r rfl hok).1]
  · cases hok : prepareCustomerData [] 0 uC with
    | error m =>
      have hcontra : (prepareCustomerData [] 0 uC).toOption = Option.none := by rw [hok]; rfl
      exact absurd hcontra (by decide)
    | ok r =>
      show Option.some (List.lookup "customer_id" r) = _
      rw [(C3_theorem.2.2.2.2.1 [] 0 uC r rfl hok).1]
  · cases hok : prepareAgentData [] 0 uC with
    | error m =>
      have hcontra : (prepareAgentData [] 0 uC).toOption = Option.none := by rw [hok]; rfl
      exact absurd hcontra (by decide)
    | ok r =>
      show Option.some (List.lookup "agent_id" r) = _
      rw [(C3_theorem.2.2.2.2.2.1 [] 0 uC r rfl hok).1]
  · cases hok : prepareAuditLogData [] 0 uC with
    | error m =>
      have hcontra : (prepareAuditLogData [] 0 uC).toOption = Option.none := by rw [hok]; rfl
      exact absurd hcontra (by decide)
    | ok r =>
      show Option.some (List.lookup "log_id" r) = _
      rw [(C3_theorem.2.2.2.2.2.2 [] 0 uC r rfl hok).1]

/-- C8, counterexample.  A payments row whose payment_id cell is the
string with surrounding whitespace builds a record whose identifier keeps
that whitespace: nothing in the pipeline trims cell values, so the
identifier differs from the trimmed input — refuting the claim that the
identifier equals the trimmed input value. -/
theorem C8_counterexample :
    ((preparePaymentData [("payment_id", PyVal.str " AB ")] 0 uC).toOption.map
      (fun r => List.lookup "payment_id" r)) =
      Option.some (Option.some (PyVal.str " AB ")) ∧
    String.mk (trimChars (" AB " : String).data) = "AB" ∧
    (" AB " : String) ≠ "AB" := by
  decide

/-- C8, amended.  For every row carrying a non-empty string in its
business identifier field, the built record's identifier equals the input
value *verbatim* (stringified), with no whitespace trimming, for each of
the seven entities. -/
theorem C8_theorem :
    (∀ row t u r s, List.lookup "payment_id" row = Option.some (PyVal.str s) → s ≠ "" →
      preparePaymentData row t u = Except.ok r →
      List.lookup "payment_id" r = Option.some (PyVal.str s)) ∧
    (∀ row t u r s, List.lookup "receipt_number" row = Option.some (PyVal.str s) → s ≠ "" →
      prepareReceiptData row t u = Except.ok r →
      List.lookup "receipt_number" r = Option.some (PyVal.str s)) ∧
    (∀ row t u r s, List.lookup "policy_number" row = Option.some (PyVal.str s) → s ≠ "" →
      preparePolicyData row t u = Except.ok r →
      List.lookup "policy_number" r = Option.some (PyVal.str s)) ∧
    (∀ row t u r s, List.lookup "claim_number" row = Option.some (PyVal.str s) → s ≠ "" →
      prepareClaimData row t u = Except.ok r →
      List.lookup "claim_number" r = Option.some (PyVal.str s)) ∧
    (∀ row t u r s, List.lookup "customer_id" row = Option.some (PyVal.str s) → s ≠ "" →
      prepareCustomerData row t u = Except.ok r →
      List.lookup "customer_id" r = Option.some (PyVal.str s)) ∧
    (∀ row t u r s, List.lookup "agent_id" row = Option.some (PyVal.str s) → s ≠ "" →
      prepareAgentData row t u = Except.ok r →
      List.lookup "agent_id" r = Option.some (PyVal.str s)) ∧
    (∀ row t u r s, List.lookup "log_id" row = Option.some (PyVal.str s) → s ≠ "" →
      prepareAuditLogData row t u = Except.ok r →
      List.lookup "log_id" r = Option.some (PyVal.str s)) := by
  refine ⟨?_, ?_, ?_, ?_, ?_, ?_, ?_⟩
  · intro row t u r s hs _ hok
    unfold preparePaymentData at hok
    rw [buildFields_eq_ok hok]
    show Option.some (exGet (idField row "payment_id" "PAY-" (u 0) 8)) = _
    rw [exGet_idField_present _ _ _ hs]
  · intro row t u r s hs _ hok
    unfold prepareReceiptData at hok
    rw [buildFields_eq_ok hok]
    show Option.some (exGet (idField row "receipt_number" "RCP-" (u 0) 8)) = _
    rw [exGet_idField_present _ _ _ hs]
  · intro row t u r s hs _ hok
    unfold preparePolicyData at hok
    rw [buildFields_eq_ok hok]
    show Option.some (exGet (idField row "policy_number" "POL-" (u 0) 8)) = _
    rw [exGet_idField_present _ _ _ hs]
  · intro row t u r s hs _ hok
    unfold prepareClaimData at hok
    rw [buildFields_eq_ok hok]
    show Option.some (exGet (idField row "claim_number" "CLM-" (u 0) 8)) = _
    rw [exGet_idField_present _ _ _ hs]
  · intro row t u r s hs _ hok
    simp only [prepareCustomerData] at hok
    rw [buildFields_eq_ok hok]
    show Option.some (exGet (idField row "customer_id" "CUST-" (u 0) 8)) = _
    rw [exGet_idField_present _ _ _ hs]
  · intro row t u r s hs _ hok
    simp only [prepareAgentData] at hok
    rw [buildFields_eq_ok hok]
    show Option.some (exGet (idField row "agent_id" "AGT-" (u 0) 8)) = _
    rw [exGet_idField_present _ _ _ hs]
  · intro row t u r s hs _ hok
    unfold prepareAuditLogData at hok
    rw [buildFields_eq_ok hok]
    show Option.some (exGet (idField row "log_id" "LOG-" (u 0) 8)) = _
    rw [exGet_idField_present _ _ _ hs]

/-- C8, witness: a whitespace-padded identifier survives verbatim in each
of the seven entities. -/
theorem C8_witness :
    ((preparePaymentData [("payment_id", PyVal.str " AB ")] 0 uC).toOption.map
      (fun r => List.lookup "payment_id" r)) = Option.some (Option.some (PyVal.str " AB ")) ∧
    ((prepareReceiptData [("receipt_number", PyVal.str " AB ")] 0 uC).toOption.map
      (fun r => List.lookup "receipt_number" r)) = Option.some (Option.some (PyVal.str " AB ")) ∧
    ((preparePolicyData [("policy_number", PyVal.str " AB ")] 0 uC).toOption.map
      (fun r => List.lookup "policy_number" r)) = Option.some (Option.some (PyVal.str " AB ")) ∧
    ((prepareClaimData [("claim_number", PyVal.str " AB ")] 0 uC).toOption.map
      (fun r => List.lookup "claim_number" r)) = Option.some (Option.some (PyVal.str " AB ")) ∧
    ((prepareCustomerData [("customer_id", PyVal.str " AB ")] 0 uC).toOption.map
      (fun r => List.lookup "customer_id" r)) = Option.some (Option.some (PyVal.str " AB ")) ∧
    ((prepareAgentData [("agent_id", PyVal.str " AB ")] 0 uC).toOption.map
      (fun r => List.lookup "agent_id" r)) = Option.some (Option.some (PyVal.str " AB ")) ∧
    ((prepareAuditLogData [("log_id", PyVal.str " AB ")] 0 uC).toOption.map
      (fun r => List.lookup "log_id" r)) = Option.some (Option.some (PyVal.str " AB ")) := by
  refine ⟨?_, ?_, ?_, ?_, ?_, ?_, ?_⟩
  · cases hok : preparePaymentData [("payment_id", PyVal.str " AB ")] 0 uC with
    | error m =>
      have hcontra : (preparePaymentData [("payment_id", PyVal.str " AB ")] 0 uC).toOption
          = Option.none := by rw [hok]; rfl
      exact absurd hcontra (by decide)
    | ok r =>
      show Option.some (List.lookup "payment_id" r) = _
      rw [C8_theorem.1 [("payment_id", PyVal.str " AB ")] 0 uC r " AB " rfl (by decide) hok]
  · cases hok : prepareReceiptData [("receipt_number", PyVal.str " AB ")] 0 uC with
    | error m =>
      have hcontra : (prepareReceiptData [("receipt_number", PyVal.str " AB ")] 0 uC).toOption
          = Option.none := by rw [hok]; rfl
      exact absurd hcontra (by decide)
    | ok r =>
      show Option.some (List.lookup "receipt_number" r) = _
      rw [C8_theorem.2.1 [("receipt_number", PyVal.str " AB ")] 0 uC r " AB " rfl (by decide) hok]
  · cases hok : preparePolicyData [("policy_number", PyVal.str " AB ")] 0 uC with
    | error m =>
      have hcontra : (preparePolicyData [("policy_number", PyVal.str " AB ")] 0 uC).toOption
          = Option.none := by rw [hok]; rfl
      exact absurd hcontra (by decide)
    | ok r =>
      show Option.some (List.lookup "policy_number" r) = _
      rw [C8_theorem.2.2.1 [("policy_number", PyVal.str " AB ")] 0 uC r " AB " rfl (by decide) hok]
  · cases hok : prepareClaimData [("claim_number", PyVal.str " AB ")] 0 uC with
    | error m =>
      have hcontra : (prepareClaimData [("claim_number", PyVal.str " AB ")] 0 uC).toOption
          = Option.none := by rw [hok]; rfl
      exact absurd hcontra (by decide)
    | ok r =>
      show Option.some (List.lookup "claim_number" r) = _
      rw [C8_theorem.2.2.2.1 [("claim_number", PyVal.str " AB ")] 0 uC r " AB " rfl (by decide) hok]
  · cases hok : prepareCustomerData [("customer_id", PyVal.str " AB ")] 0 uC with
    | error m =>
      have hcontra : (prepareCustomerData [("customer_id", PyVal.str " AB ")] 0 uC).toOption
          = Option.none := by rw [hok]; rfl
      exact absurd hcontra (by decide)
    | ok r =>
      show Option.some (List.lookup "customer_id" r) = _
      rw [C8_theorem.2.2.2.2.1 [("customer_id", PyVal.str " AB ")] 0 uC r " AB " rfl (by decide) hok]
  · cases hok : prepareAgentData [("agent_id", PyVal.str " AB ")] 0 uC with
    | error m =>
      have hcontra : (prepareAgentData [("agent_id", PyVal.str " AB ")] 0 uC).toOption
          = Option.none := by rw [hok]; rfl
      exact absurd hcontra (by decide)
    | ok r =>
      show Option.some (List.lookup "agent_id" r) = _
      rw [C8_theorem.2.2.2.2.2.1 [("agent_id", PyVal.str " AB ")] 0 uC r " AB " rfl (by decide) hok]
  · cases hok : prepareAuditLogData [("log_id", PyVal.str " AB ")] 0 uC with
    | error m =>
      have hcontra : (prepareAuditLogData [("log_id", PyVal.str " AB ")] 0 uC).toOption
          = Option.none := by rw [hok]; rfl
      exact absurd hcontra (by decide)
    | ok r =>
      show Option.some (List.lookup "log_id" r) = _
      rw [C8_theorem.2.2.2.2.2.2 [("log_id", PyVal.str " AB ")] 0 uC r " AB " rfl (by decide) hok]

/-- C4.  For every import that reaches the row loop and returns a result,
`records_imported + len(errors)` equals the number of rows remaining after
normalization (fully empty rows were dropped by `dropna(how='all')` and so
appear on neither side): each surviving row contributes to exactly one of
the two. -/
theorem C4_theorem (env : Env) (dataType : String) (df : DataFrame) (res : ImportResult)
    (hsupp : dataType ∈ supportedTypes)
    (hok : (processFile env dataType df).outcome = Except.ok res) :
    res.records_imported + res.errors.length = (cleanDataframe df).length := by
  rcases processFile_ok hsupp hok with ⟨hres, -, -⟩
  rw [hres]
  exact runRows_length env dataType 0 (cleanDataframe df)

/-- C4, witness: a three-row payments frame with one failing row yields
2 imported + 1 error = 3 surviving rows. -/
theorem C4_witness :
    ({ records_imported := 2,
       errors := ["Row 2: could not convert string to float: x"],
       status := "completed_with_errors" } : ImportResult).records_imported +
      ({ records_imported := 2,
         errors := ["Row 2: could not convert string to float: x"],
         status := "completed_with_errors" } : ImportResult).errors.length =
      (cleanDataframe dfMidBad).length :=
  C4_theorem envOk "payments" dfMidBad _ (by decide) (by decide)

/-- C5.  For every import that completes the row loop and whose commit
does not fail (i.e., that returns a result), the status is "completed"
exactly when the error list is empty and "completed_with_errors" exactly
otherwise — including the degenerate case of zero staged records, since
the statement holds for every returned result whatsoever. -/
theorem C5_theorem (env : Env) (dataType : String) (df : DataFrame) (res : ImportResult)
    (hsupp : dataType ∈ supportedTypes)
    (hok : (processFile env dataType df).outcome = Except.ok res) :
    (res.status = "completed" ↔ res.errors = []) ∧
    (res.status = "completed_with_errors" ↔ res.errors ≠ []) := by
  rcases processFile_ok hsupp hok with ⟨hres, -, -⟩
  rw [hres]
  have hne : ¬("completed_with_errors" : String) = "completed" := by decide
  by_cases he : (runRows env dataType 0 (cleanDataframe df)).2 = []
  · simp [he]
  · have hemp : (runRows env dataType 0 (cleanDataframe df)).2.isEmpty = false := by
      simpa [List.isEmpty_iff] using he
    simp [hemp, he, hne]

/-- C5, witness: an import where every row fails yields status
"completed_with_errors" with zero records imported, and exactly one audit
entry is attempted (via the run itself). -/
theorem C5_witness :
    (({ records_imported := 0,
        errors := ["Row 1: could not convert string to float: x",
                   "Row 2: could not convert string to float: y"],
        status := "completed_with_errors" } : ImportResult).status = "completed_with_errors" ↔
      ({ records_imported := 0,
         errors := ["Row 1: could not convert string to float: x",
                    "Row 2: could not convert string to float: y"],
         status := "completed_with_errors" } : ImportResult).errors ≠ []) :=
  (C5_theorem envOk "payments" dfAllBad _ (by decide) (by decide)).2

/-- C6.  A row whose build raises a ValidationError contributes exactly
one RowError carrying its original 1-based index and the failure message,
placed between the errors of the preceding and following rows; its record
is absent from the committed set, which is exactly the concatenation of
what the surrounding rows produce on their own — so one bad row never
aborts or perturbs the rest of the batch. -/
theorem C6_theorem (env : Env) (dataType : String) (df : DataFrame)
    (pre : List (Nat × Row)) (p : Nat × Row) (post : List (Nat × Row)) (m : String)
    (res : ImportResult)
    (hsupp : dataType ∈ supportedTypes)
    (hsplit : cleanDataframe df = pre ++ p :: post)
    (hfail : prepareRecordData dataType p.2 (env.now pre.length) (env.uuidHex pre.length)
      = Except.error m)
    (hok : (processFile env dataType df).outcome = Except.ok res) :
    res.errors = (runRows env dataType 0 pre).2 ++
      ("Row " ++ toString (p.1 + 1) ++ ": " ++ m) ::
        (runRows env dataType (pre.length + 1) post).2 ∧
    (processFile env dataType df).db.committed = (runRows env dataType 0 pre).1 ++
      (runRows env dataType (pre.length + 1) post).1 := by
  rcases processFile_ok hsupp hok with ⟨hres, hcom, -⟩
  have hrun : runRows env dataType 0 (cleanDataframe df) =
      ((runRows env dataType 0 pre).1 ++ (runRows env dataType (pre.length + 1) post).1,
       (runRows env dataType 0 pre).2 ++
        ("Row " ++ toString (p.1 + 1) ++ ": " ++ m) ::
          (runRows env dataType (pre.length + 1) post).2) := by
    rw [hsplit, runRows_append, runRows_cons]
    rw [Nat.zero_add]
    rw [hfail]
  constructor
  · rw [hres]
    show (runRows env dataType 0 (cleanDataframe df)).2 = _
    rw [hrun]
  · rw [hcom, hrun]

/-- C6, witness: in the three-row payments frame whose middle row has
non-numeric text in the amount column, the errors are exactly the middle
row's message at its 1-based index 2, and the committed records are those
of rows 1 and 3. -/
theorem C6_witness :
    ({ records_imported := 2,
       errors := ["Row 2: could not convert string to float: x"],
       status := "completed_with_errors" } : ImportResult).errors =
      (runRows envOk "payments" 0 [(0, [("payment_id", PyVal.str "P1"), ("amount", PyVal.str "1")])]).2 ++
      ("Row " ++ toString (1 + 1) ++ ": " ++ "could not convert string to float: x") ::
        (runRows envOk "payments" 2 [(2, [("payment_id", PyVal.str "P3"), ("amount", PyVal.str "3")])]).2 ∧
    (processFile envOk "payments" dfMidBad).db.committed =
      (runRows envOk "payments" 0 [(0, [("payment_id", PyVal.str "P1"), ("amount", PyVal.str "1")])]).1 ++
      (runRows envOk "payments" 2 [(2, [("payment_id", PyVal.str "P3"), ("amount", PyVal.str "3")])]).1 :=
  C6_theorem envOk "payments" dfMidBad
    [(0, [("payment_id", PyVal.str "P1"), ("amount", PyVal.str "1")])]
    (1, [("payment_id", PyVal.str "P2"), ("amount", PyVal.str "x")])
    [(2, [("payment_id", PyVal.str "P3"), ("amount", PyVal.str "3")])]
    "could not convert string to float: x" _
    (by decide) (by decide) (by decide) (by decide)

/-- Whether a build succeeded. -/
def exIsOk : Except String Row → Bool
  | Except.ok _ => true
  | Except.error _ => false

/-- The amount-like required numeric fields of each entity: exactly the
`float(row.get(k, 0))` sites of the seven `_prepare_*_data` methods. -/
def requiredNumericFields : List (String × String) :=
  [("payments", "amount"), ("payments", "processing_fee"), ("receipts", "amount"),
   ("policies", "premium_amount"), ("policies", "coverage_amount"), ("policies", "deductible"),
   ("claims", "claim_amount"), ("agents", "total_premium_written"),
   ("agents", "commission_rate"), ("agents", "total_commission_earned")]

/-- The optional numeric fields: the
`float(row.get(k)) if row.get(k) else None` sites. -/
def optionalNumericFields : List (String × String) :=
  [("claims", "approved_amount"), ("agents", "customer_satisfaction_score")]

theorem exGet_reqFloatField_absent {row : Row} {k : String}
    (habs : row.lookup k = Option.none) :
    exGet (reqFloatField row k) = PyVal.num ⟨0, 0⟩ := by
  rw [reqFloatField, rowGet_of_lookup_none habs]
  rfl

theorem exGet_optFloatField_absent {row : Row} {k : String}
    (habs : row.lookup k = Option.none) :
    exGet (optFloatField row k) = PyVal.none := by
  rw [optFloatField, rowGetD, rowGet_of_lookup_none habs]
  rfl

theorem reqFloatField_error {row : Row} {k s : String}
    (hs : row.lookup k = Option.some (PyVal.str s)) (hp : parsePyFloat s = Option.none) :
    reqFloatField row k = Except.error ("could not convert string to float: " ++ s) := by
  rw [reqFloatField, rowGet_of_lookup_some hs]
  simp [pyFloat, hp, Except.map]

theorem optFloatField_error {row : Row} {k s : String}
    (hs : row.lookup k = Option.some (PyVal.str s)) (hs2 : s ≠ "")
    (hp : parsePyFloat s = Option.none) :
    optFloatField row k = Except.error ("could not convert string to float: " ++ s) := by
  have hv : rowGetD row k = PyVal.str s := by rw [rowGetD, rowGet_of_lookup_some hs]
  unfold optFloatField
  rw [hv]
  have htr : truthy (PyVal.str s) = true := by simp [truthy, hs2]
  rw [htr]
  simp [pyFloat, hp, Except.map]

/-- C7.  For every row and every amount-like numeric field of the target
entity: a required numeric whose column is absent defaults to 0; an
optional numeric whose column is absent becomes null; and non-numeric text
in such a field makes the whole row's build fail with a ValidationError. -/
theorem C7_theorem :
    (∀ dt f, (dt, f) ∈ requiredNumericFields → ∀ row t u r,
      List.lookup f row = Option.none → prepareRecordData dt row t u = Except.ok r →
      List.lookup f r = Option.some (PyVal.num ⟨0, 0⟩)) ∧
    (∀ dt f, (dt, f) ∈ optionalNumericFields → ∀ row t u r,
      List.lookup f row = Option.none → prepareRecordData dt row t u = Except.ok r →
      List.lookup f r = Option.some PyVal.none) ∧
    (∀ dt f, (dt, f) ∈ requiredNumericFields ++ optionalNumericFields → ∀ row t u s,
      List.lookup f row = Option.some (PyVal.str s) → s ≠ "" → parsePyFloat s = Option.none →
      exIsOk (prepareRecordData dt row t u) = false) := by
  refine ⟨?_, ?_, ?_⟩
  · intro dt f hmem
    fin_cases hmem
    all_goals intro row t u r habs hok
    · have hok2 : preparePaymentData row t u = Except.ok r := hok
      unfold preparePaymentData at hok2
      rw [buildFields_eq_ok hok2]
      show Option.some (exGet (reqFloatField row "amount")) = _
      rw [exGet_reqFloatField_absent habs]
    · have hok2 : preparePaymentData row t u = Except.ok r := hok
      unfold preparePaymentData at hok2
      rw [buildFields_eq_ok hok2]
      show Option.some (exGet (reqFloatField row "processing_fee")) = _
      rw [exGet_reqFloatField_absent habs]
    · have hok2 : prepareReceiptData row t u = Except.ok r := hok
      unfold prepareReceiptData at hok2
      rw [buildFields_eq_ok hok2]
      show Option.some (exGet (reqFloatField row "amount")) = _
      rw [exGet_reqFloatField_absent habs]
    · have hok2 : preparePolicyData row t u = Except.ok r := hok
      unfold preparePolicyData at hok2
      rw [buildFields_eq_ok hok2]
      show Option.some (exGet (reqFloatField row "premium_amount")) = _
      rw [exGet_reqFloatField_absent habs]
    · have hok2 : preparePolicyData row t u = Except.ok r := hok
      unfold preparePolicyData at hok2
      rw [buildFields_eq_ok hok2]
      show Option.some (exGet (reqFloatField row "coverage_amount")) = _
      rw [exGet_reqFloatField_absent habs]
    · have hok2 : preparePolicyData row t u = Except.ok r := hok
      unfold preparePolicyData at hok2
      rw [buildFields_eq_ok hok2]
      show Option.some (exGet (reqFloatField row "deductible")) = _
      rw [exGet_reqFloatField_absent habs]
    · have hok2 : prepareClaimData row t u = Except.ok r := hok
      unfold prepareClaimData at hok2
      rw [buildFields_eq_ok hok2]
      show Option.some (exGet (reqFloatField row "claim_amount")) = _
      rw [exGet_reqFloatField_absent habs]
    · have hok2 : prepareAgentData row t u = Except.ok r := hok
      simp only [prepareAgentData] at hok2
      rw [buildFields_eq_ok hok2]
      show Option.some (exGet (reqFloatField row "total_premium_written")) = _
      rw [exGet_reqFloatField_absent habs]
    · have hok2 : prepareAgentData row t u = Except.ok r := hok
      simp only [prepareAgentData] at hok2
      rw [buildFields_eq_ok hok2]
      show Option.some (exGet (reqFloatField row "commission_rate")) = _
      rw [exGet_reqFloatField_absent habs]
    · have hok2 : prepareAgentData row t u = Except.ok r := hok
      simp only [prepareAgentData] at hok2
      rw [buildFields_eq_ok hok2]
      show Option.some (exGet (reqFloatField row "total_commission_earned")) = _
      rw [exGet_reqFloatField_absent habs]
  · intro dt f hmem
    fin_cases hmem
    all_goals intro row t u r habs hok
    · have hok2 : prepareClaimData row t u = Except.ok r := hok
      unfold prepareClaimData at hok2
      rw [buildFields_eq_ok hok2]
      show Option.some (exGet (optFloatField row "approved_amount")) = _
      rw [exGet_optFloatField_absent habs]
    · have hok2 : prepareAgentData row t u = Except.ok r := hok
      simp only [prepareAgentData] at hok2
      rw [buildFields_eq_ok hok2]
      show Option.some (exGet (optFloatField row "customer_satisfaction_score")) = _
      rw [exGet_optFloatField_absent habs]
  · intro dt f hmem
    fin_cases hmem
    all_goals intro row t u s hs hs2 hp
    · rcases buildFields_error_of_mem
        (show ("amount", reqFloatField row "amount") ∈ paymentFields row t u by
          simp [paymentFields])
        (reqFloatField_error hs hp) with ⟨m2, hm2⟩
      show exIsOk (preparePaymentData row t u) = false
      unfold preparePaymentData
      rw [hm2]
      rfl
    · rcases buildFields_error_of_mem
        (show ("processing_fee", reqFloatField row "processing_fee") ∈ paymentFields row t u by
          simp [paymentFields])
        (reqFloatField_error hs hp) with ⟨m2, hm2⟩
      show exIsOk (preparePaymentData row t u) = false
      unfold preparePaymentData
      rw [hm2]
      rfl
    · rcases buildFields_error_of_mem
        (show ("amount", reqFloatField row "amount") ∈ receiptFields row t u by
          simp [receiptFields])
        (reqFloatField_error hs hp) with ⟨m2, hm2⟩
      show exIsOk (prepareReceiptData row t u) = false
      unfold prepareReceiptData
      rw [hm2]
      rfl
    · rcases buildFields_error_of_mem
        (show ("premium_amount", reqFloatField row "premium_amount") ∈ policyFields row t u by
          simp [policyFields])
        (reqFloatField_error hs hp) with ⟨m2, hm2⟩
      show exIsOk (preparePolicyData row t u) = false
      unfold preparePolicyData
      rw [hm2]
      rfl
    · rcases buildFields_error_of_mem
        (show ("coverage_amount", reqFloatField row "coverage_amount") ∈ policyFields row t u by
          simp [policyFields])
        (reqFloatField_error hs hp) with ⟨m2, hm2⟩
      show exIsOk (preparePolicyData row t u) = false
      unfold preparePolicyData
      rw [hm2]
      rfl
    · rcases buildFields_error_of_mem
        (show ("deductible", reqFloatField row "deductible") ∈ policyFields row t u by
          simp [policyFields])
        (reqFloatField_error hs hp) with ⟨m2, hm2⟩
      show exIsOk (preparePolicyData row t u) = false
      unfold preparePolicyData
      rw [hm2]
      rfl
    · rcases buildFields_error_of_mem
        (show ("claim_amount", reqFloatField row "claim_amount") ∈ claimFields row t u by
          simp [claimFields])
        (reqFloatField_error hs hp) with ⟨m2, hm2⟩
      show exIsOk (prepareClaimData row t u) = false
      unfold prepareClaimData
      rw [hm2]
      rfl
    · rcases buildFields_error_of_mem
        (show ("total_premium_written", reqFloatField row "total_premium_written")
            ∈ agentFields row t u by
          simp [agentFields])
        (reqFloatField_error hs hp) with ⟨m2, hm2⟩
      show exIsOk (prepareAgentData row t u) = false
      unfold prepareAgentData
      rw [hm2]
      rfl
    · rcases buildFields_error_of_mem
        (show ("commission_rate", reqFloatField row "commission_rate") ∈ agentFields row t u by
          simp [agentFields])
        (reqFloatField_error hs hp) with ⟨m2, hm2⟩
      show exIsOk (prepareAgentData row t u) = false
      unfold prepareAgentData
      rw [hm2]
      rfl
    · rcases buildFields_error_of_mem
        (show ("total_commission_earned", reqFloatField row "total_commission_earned")
            ∈ agentFields row t u by
          simp [agentFields])
        (reqFloatField_error hs hp) with ⟨m2, hm2⟩
      show exIsOk (prepareAgentData row t u) = false
      unfold prepareAgentData
      rw [hm2]
      rfl
    · rcases buildFields_error_of_mem
        (show ("approved_amount", optFloatField row "approved_amount") ∈ claimFields row t u by
          simp [claimFields])
        (optFloatField_error hs hs2 hp) with ⟨m2, hm2⟩
      show exIsOk (prepareClaimData row t u) = false
      unfold prepareClaimData
      rw [hm2]
      rfl
    · rcases buildFields_error_of_mem
        (show ("customer_satisfaction_score", optFloatField row "customer_satisfaction_score")
            ∈ agentFields row t u by
          simp [agentFields])
        (optFloatField_error hs hs2 hp) with ⟨m2, hm2⟩
      show exIsOk (prepareAgentData row t u) = false
      unfold prepareAgentData
      rw [hm2]
      rfl

/-- C7, witness: with the amount column absent a payments build defaults
amount to 0; with the approved_amount column absent a claims build stores
null; and non-numeric text in the amount column fails the payments row. -/
theorem C7_witness :
    ((prepareRecordData "payments" [] 0 uC).toOption.map (fun r => List.lookup "amount" r)) =
      Option.some (Option.some (PyVal.num ⟨0, 0⟩)) ∧
    ((prepareRecordData "claims" [] 0 uC).toOption.map
      (fun r => List.lookup "approved_amount" r)) =
      Option.some (Option.some PyVal.none) ∧
    exIsOk (prepareRecordData "payments" [("amount", PyVal.str "abc")] 0 uC) = false := by
  refine ⟨?_, ?_, ?_⟩
  · cases hok : prepareRecordData "payments" [] 0 uC with
    | error m =>
      have hcontra : (prepareRecordData "payments" [] 0 uC).toOption = Option.none := by
        rw [hok]; rfl
      exact absurd hcontra (by decide)
    | ok r =>
      show Option.some (List.lookup "amount" r) = _
      rw [C7_theorem.1 "payments" "amount" (by decide) [] 0 uC r rfl hok]
  · cases hok : prepareRecordData "claims" [] 0 uC with
    | error m =>
      have hcontra : (prepareRecordData "claims" [] 0 uC).toOption = Option.none := by
        rw [hok]; rfl
      exact absurd hcontra (by decide)
    | ok r =>
      show Option.some (List.lookup "approved_amount" r) = _
      rw [C7_theorem.2.1 "claims" "approved_amount" (by decide) [] 0 uC r rfl hok]
  · exact C7_theorem.2.2 "payments" "amount" (by decide)
      [("amount", PyVal.str "abc")] 0 uC "abc" rfl (by decide) (by decide)

/-- The boolean flag fields cited from `_prepare_payment_data` (lines
135-136) and `_prepare_claim_data` (lines 203-205). -/
def boolFlagFields : List (String × String) :=
  [("payments", "is_recurring"), ("payments", "is_late_payment"),
   ("claims", "is_fraudulent"), ("claims", "requires_investigation"),
   ("claims", "has_attachments")]

theorem exGet_boolField_str {row : Row} {k s : String}
    (hs : row.lookup k = Option.some (PyVal.str s)) :
    exGet (boolField row k) = PyVal.bool (s != "") := by
  rw [boolField, rowGet_of_lookup_some hs]
  rfl

theorem exGet_boolField_absent {row : Row} {k : String}
    (habs : row.lookup k = Option.none) :
    exGet (boolField row k) = PyVal.bool false := by
  rw [boolField, rowGet_of_lookup_none habs]
  rfl

/-- C9.  A boolean flag field whose cell holds a string is coerced with
Python truthiness: any non-empty string — including the texts "false",
"0" and "no" — becomes true, the empty string becomes false; an absent
column becomes false. -/
theorem C9_theorem :
    (∀ dt f, (dt, f) ∈ boolFlagFields → ∀ row t u r s,
      List.lookup f row = Option.some (PyVal.str s) →
      prepareRecordData dt row t u = Except.ok r →
      List.lookup f r = Option.some (PyVal.bool (s != ""))) ∧
    (∀ dt f, (dt, f) ∈ boolFlagFields → ∀ row t u r,
      List.lookup f row = Option.none →
      prepareRecordData dt row t u = Except.ok r →
      List.lookup f r = Option.some (PyVal.bool false)) := by
  constructor
  · intro dt f hmem
    fin_cases hmem
    all_goals intro row t u r s hs hok
    · have hok2 : preparePaymentData row t u = Except.ok r := hok
      unfold preparePaymentData at hok2
      rw [buildFields_eq_ok hok2]
      show Option.some (exGet (boolField row "is_recurring")) = _
      rw [exGet_boolField_str hs]
    · have hok2 : preparePaymentData row t u = Except.ok r := hok
      unfold preparePaymentData at hok2
      rw [buildFields_eq_ok hok2]
      show Option.some (exGet (boolField row "is_late_payment")) = _
      rw [exGet_boolField_str hs]
    · have hok2 : prepareClaimData row t u = Except.ok r := hok
      unfold prepareClaimData at hok2
      rw [buildFields_eq_ok hok2]
      show Option.some (exGet (boolField row "is_fraudulent")) = _
      rw [exGet_boolField_str hs]
    · have hok2 : prepareClaimData row t u = Except.ok r := hok
      unfold prepareClaimData at hok2
      rw [buildFields_eq_ok hok2]
      show Option.some (exGet (boolField row "requires_investigation")) = _
      rw [exGet_boolField_str hs]
    · have hok2 : prepareClaimData row t u = Except.ok r := hok
      unfold prepareClaimData at hok2
      rw [buildFields_eq_ok hok2]
      show Option.some (exGet (boolField row "has_attachments")) = _
      rw [exGet_boolField_str hs]
  · intro dt f hmem
    fin_cases hmem
    all_goals intro row t u r habs hok
    · have hok2 : preparePaymentData row t u = Except.ok r := hok
      unfold preparePaymentData at hok2
      rw [buildFields_eq_ok hok2]
      show Option.some (exGet (boolField row "is_recurring")) = _
      rw [exGet_boolField_absent habs]
    · have hok2 : preparePaymentData row t u = Except.ok r := hok
      unfold preparePaymentData at hok2
      rw [buildFields_eq_ok hok2]
      show Option.some (exGet (boolField row "is_late_payment")) = _
      rw [exGet_boolField_absent habs]
    · have hok2 : prepareClaimData row t u = Except.ok r := hok
      unfold prepareClaimData at hok2
      rw [buildFields_eq_ok hok2]
      show Option.some (exGet (boolField row "is_fraudulent")) = _
      rw [exGet_boolField_absent habs]
    · have hok2 : prepareClaimData row t u = Except.ok r := hok
      unfold prepareClaimData at hok2
      rw [buildFields_eq_ok hok2]
      show Option.some (exGet (boolField row "requires_investigation")) = _
      rw [exGet_boolField_absent habs]
    · have hok2 : prepareClaimData row t u = Except.ok r := hok
      unfold prepareClaimData at hok2
      rw [buildFields_eq_ok hok2]
      show Option.some (exGet (boolField row "has_attachments")) = _
      rw [exGet_boolField_absent habs]

/-- C9, witness: the text "false" in is_recurring coerces to true, and an
absent is_recurring column coerces to false. -/
theorem C9_witness :
    ((prepareRecordData "payments" [("is_recurring", PyVal.str "false")] 0 uC).toOption.map
      (fun r => List.lookup "is_recurring" r)) =
      Option.some (Option.some (PyVal.bool true)) ∧
    ((prepareRecordData "payments" [] 0 uC).toOption.map
      (fun r => List.lookup "is_recurring" r)) =
      Option.some (Option.some (PyVal.bool false)) := by
  constructor
  · cases hok : prepareRecordData "payments" [("is_recurring", PyVal.str "false")] 0 uC with
    | error m =>
      have hcontra : (prepareRecordData "payments" [("is_recurring", PyVal.str "false")] 0
          uC).toOption = Option.none := by rw [hok]; rfl
      exact absurd hcontra (by decide)
    | ok r =>
      show Option.some (List.lookup "is_recurring" r) = _
      rw [C9_theorem.1 "payments" "is_recurring" (by decide)
        [("is_recurring", PyVal.str "false")] 0 uC r "false" rfl hok]
      rfl
  · cases hok : prepareRecordData "payments" [] 0 uC with
    | error m =>
      have hcontra : (prepareRecordData "payments" [] 0 uC).toOption = Option.none := by
        rw [hok]; rfl
      exact absurd hcontra (by decide)
    | ok r =>
      show Option.some (List.lookup "is_recurring" r) = _
      rw [C9_theorem.2 "payments" "is_recurring" (by decide) [] 0 uC r rfl hok]

theorem exGet_emailField_absent {row : Row} {k : String} (user hex : String)
    (habs : row.lookup k = Option.none) :
    exGet (emailField row k user hex) = PyVal.str (user ++ strTake hex 8 ++ "@example.com") := by
  rw [emailField, rowGet_of_lookup_none habs]
  rfl

/-- C10.  A customers (resp. agents) row whose email column is absent
gets a synthesized address "customer" (resp. "agent") followed by the
first 8 characters of the `uuid4().hex` output and "@example.com", which
is neither null nor empty. -/
theorem C10_theorem :
    (∀ row t u r, List.lookup "email" row = Option.none →
      prepareCustomerData row t u = Except.ok r →
      List.lookup "email" r =
        Option.some (PyVal.str ("customer" ++ strTake (u 1) 8 ++ "@example.com")) ∧
      "customer" ++ strTake (u 1) 8 ++ "@example.com" ≠ "") ∧
    (∀ row t u r, List.lookup "email" row = Option.none →
      prepareAgentData row t u = Except.ok r →
      List.lookup "email" r =
        Option.some (PyVal.str ("agent" ++ strTake (u 1) 8 ++ "@example.com")) ∧
      "agent" ++ strTake (u 1) 8 ++ "@example.com" ≠ "") := by
  constructor
  · intro row t u r habs hok
    simp only [prepareCustomerData] at hok
    rw [buildFields_eq_ok hok]
    refine ⟨?_, append_left_ne_empty "customer" (strTake (u 1) 8 ++ "@example.com") (by decide)⟩
    show Option.some (exGet (emailField row "email" "customer" (u 1))) = _
    rw [exGet_emailField_absent _ _ habs]
  · intro row t u r habs hok
    simp only [prepareAgentData] at hok
    rw [buildFields_eq_ok hok]
    refine ⟨?_, append_left_ne_empty "agent" (strTake (u 1) 8 ++ "@example.com") (by decide)⟩
    show Option.some (exGet (emailField row "email" "agent" (u 1))) = _
    rw [exGet_emailField_absent _ _ habs]

/-- C10, witness: building the empty customers and agents rows yields the
synthesized addresses. -/
theorem C10_witness :
    ((prepareCustomerData [] 0 uC).toOption.map (fun r => List.lookup "email" r)) =
      Option.some (Option.some (PyVal.str ("customer" ++ strTake (uC 1) 8 ++ "@example.com"))) ∧
    ((prepareAgentData [] 0 uC).toOption.map (fun r => List.lookup "email" r)) =
      Option.some (Option.some (PyVal.str ("agent" ++ strTake (uC 1) 8 ++ "@example.com"))) := by
  constructor
  · cases hok : prepareCustomerData [] 0 uC with
    | error m =>
      have hcontra : (prepareCustomerData [] 0 uC).toOption = Option.none := by rw [hok]; rfl
      exact absurd hcontra (by decide)
    | ok r =>
      show Option.some (List.lookup "email" r) = _
      rw [(C10_theorem.1 [] 0 uC r rfl hok).1]
  · cases hok : prepareAgentData [] 0 uC with
    | error m =>
      have hcontra : (prepareAgentData [] 0 uC).toOption = Option.none := by rw [hok]; rfl
      exact absurd hcontra (by decide)
    | ok r =>
      show Option.some (List.lookup "email" r) = _
      rw [(C10_theorem.2 [] 0 uC r rfl hok).1]

end FileProc

namespace FileProc

example : truthy (PyVal.str "false") = true := by decide
example : parsePyFloat " 12.5 " = Option.some ⟨125, 1⟩ := by decide
example : parsePyFloat "" = Option.none := by decide
example : parsePyFloat "abc" = Option.none := by decide
example :
    cleanDataframe { cols := ["Payment Id", "amount"],
                     cells := [[Option.none, Option.none],
                               [Option.some (PyVal.str "x"), Option.none]] } =
      [(1, [("payment_id", PyVal.str "x"), ("amount", PyVal.str "")])] := by decide

end FileProc
